import Mathlib

/-!
Verification of the SimLamp agent decision core (Identity-Matrix/api/app).

This file is a shallow embedding of the Python sources
`agent_engine.py`, `agent_worker.py`, `agent_database.py` and
`conversation.py` into Lean 4, together with theorems settling the
frozen claims about them.

Modelling conventions:
* Python floats are modelled as rationals (`ℚ`) wherever the source only
  performs field arithmetic and comparisons; `math.exp`, `math.sqrt`,
  `math.cos`/`math.sin` force `ℝ` in the softmax and wander-target code.
* `datetime` values are modelled as rational timestamps (seconds); every
  call of `datetime.utcnow()` becomes an explicit `now : ℚ` argument.
* Python dicts of need deltas are association lists `List (String × ℚ)`;
  `d.get(k, default)` is `dict_get`.
* Calls of `random.random` / `random.uniform` / `random.gauss` /
  `random.choice` become explicit parameters (draw streams), so every
  function is a pure function of its inputs and its random draws.
* Database reads/writes and logging are external I/O and are not part of
  the modelled state transformations; where a function returns data that
  it also writes (e.g. `update_social_memory`) the returned value is
  modelled.  Position writes (`update_avatar_position`) are modelled as
  an explicit `new_position` output.
* Pydantic field bounds (`ge`/`le`) are not baked into the structures;
  where a claim needs them they appear as explicit hypotheses.
-/

/-- ActionType enum from `agent_models.py`. -/
inductive ActionType where
  | IDLE
  | WANDER
  | WALK_TO_LOCATION
  | INTERACT_FOOD
  | INTERACT_KARAOKE
  | INTERACT_REST
  | INTERACT_SOCIAL_HUB
  | INTERACT_WANDER_POINT
  | INITIATE_CONVERSATION
  | JOIN_CONVERSATION
  | LEAVE_CONVERSATION
  | AVOID_AVATAR
  | MOVE
  | STAND_STILL
deriving DecidableEq, Repr

/-- String value of each ActionType member (the `str` mixin of the enum). -/
def ActionType.value : ActionType → String
  | .IDLE => "idle"
  | .WANDER => "wander"
  | .WALK_TO_LOCATION => "walk_to_location"
  | .INTERACT_FOOD => "interact_food"
  | .INTERACT_KARAOKE => "interact_karaoke"
  | .INTERACT_REST => "interact_rest"
  | .INTERACT_SOCIAL_HUB => "interact_social_hub"
  | .INTERACT_WANDER_POINT => "interact_wander_point"
  | .INITIATE_CONVERSATION => "initiate_conversation"
  | .JOIN_CONVERSATION => "join_conversation"
  | .LEAVE_CONVERSATION => "leave_conversation"
  | .AVOID_AVATAR => "avoid_avatar"
  | .MOVE => "move"
  | .STAND_STILL => "stand_still"

/-- Inverse of `ActionType.value` (the `ActionType(string)` enum call). -/
def ActionType.ofValue (s : String) : Option ActionType :=
  [ActionType.IDLE, .WANDER, .WALK_TO_LOCATION, .INTERACT_FOOD, .INTERACT_KARAOKE,
   .INTERACT_REST, .INTERACT_SOCIAL_HUB, .INTERACT_WANDER_POINT, .INITIATE_CONVERSATION,
   .JOIN_CONVERSATION, .LEAVE_CONVERSATION, .AVOID_AVATAR, .MOVE, .STAND_STILL].find?
    (fun a => a.value == s)

/-- LocationType enum from `agent_models.py`. -/
inductive LocationType where
  | FOOD
  | KARAOKE
  | REST_AREA
  | SOCIAL_HUB
  | WANDER_POINT
deriving DecidableEq, Repr

/-- String value of each LocationType member. -/
def LocationType.value : LocationType → String
  | .FOOD => "food"
  | .KARAOKE => "karaoke"
  | .REST_AREA => "rest_area"
  | .SOCIAL_HUB => "social_hub"
  | .WANDER_POINT => "wander_point"

/-- ActionTarget model: target of an action (a `model_dump` of it is what
is stored in `AgentState.current_action_target`, so the same structure
also models that dict, whose `name` key the worker overwrites). -/
structure ActionTarget where
  target_type : String
  target_id : Option String := none
  name : Option String := none
  x : Option ℤ := none
  y : Option ℤ := none
deriving DecidableEq, Repr

/-- AgentState model (`agent_models.py`): needs plus action bookkeeping.
Timestamps are rational seconds. -/
structure AgentState where
  avatar_id : String
  energy : ℚ
  hunger : ℚ
  loneliness : ℚ
  mood : ℚ
  current_action : Option String
  current_action_target : Option ActionTarget
  action_started_at : Option ℚ
  action_expires_at : Option ℚ
  last_tick : Option ℚ
  tick_lock_until : Option ℚ
  created_at : Option ℚ
  updated_at : Option ℚ
deriving DecidableEq, Repr

/-- AgentPersonality model: the four scalar traits and the location
affinity map used by the engine (the free-text profile fields are opaque
to the decision core and omitted). -/
structure AgentPersonality where
  avatar_id : String
  sociability : ℚ
  curiosity : ℚ
  agreeableness : ℚ
  energy_baseline : ℚ
  world_affinities : List (String × ℚ)
deriving DecidableEq, Repr

/-- SocialMemory model: a directed relationship edge. -/
structure SocialMemory where
  id : Option String := none
  from_avatar_id : String
  to_avatar_id : String
  sentiment : ℚ := 0
  familiarity : ℚ := 0
  interaction_count : ℕ := 0
  last_interaction : Option ℚ := none
  last_conversation_topic : Option String := none
  mutual_interests : Option (List String) := none
  conversation_history_summary : Option String := none
  relationship_notes : Option String := none
deriving DecidableEq, Repr

/-- WorldLocation model: static world reference data. -/
structure WorldLocation where
  id : String
  name : String
  location_type : LocationType
  x : ℤ
  y : ℤ
  effects : List (String × ℚ) := []
  cooldown_seconds : ℤ := 300
  duration_seconds : ℤ := 30
deriving DecidableEq, Repr

/-- NearbyAvatar model: a nearby entity as seen in the context. -/
structure NearbyAvatar where
  avatar_id : String
  display_name : Option String := none
  x : ℤ
  y : ℤ
  distance : ℚ
  is_online : Bool
deriving DecidableEq, Repr

/-- One entry of `pending_conversation_requests` (a Python dict read with
`request.get("initiator_type", "ROBOT")` and `request.get("initiator_id")`). -/
structure ConvRequest where
  initiator_type : Option String := none
  initiator_id : Option String := none
deriving DecidableEq, Repr

/-- AgentContext model: the full immutable per-tick decision context. -/
structure AgentContext where
  avatar_id : String
  x : ℤ
  y : ℤ
  personality : AgentPersonality
  state : AgentState
  social_memories : List SocialMemory := []
  nearby_avatars : List NearbyAvatar := []
  world_locations : List WorldLocation := []
  active_cooldowns : List String := []
  in_conversation : Bool := false
  pending_conversation_requests : List ConvRequest := []
deriving DecidableEq, Repr

/-- CandidateAction model: an action with its score components. -/
structure CandidateAction where
  action_type : ActionType
  target : Option ActionTarget := none
  utility_score : ℚ := 0
  need_satisfaction : ℚ := 0
  personality_alignment : ℚ := 0
  social_memory_bias : ℚ := 0
  world_affinity : ℚ := 0
  recency_penalty : ℚ := 0
  randomness : ℚ := 0
deriving DecidableEq, Repr

/-- SelectedAction model: the decision output. -/
structure SelectedAction where
  action_type : ActionType
  target : Option ActionTarget := none
  utility_score : ℚ := 0
  duration_seconds : Option ℚ := none
deriving DecidableEq, Repr

/-- Association-list read with default: Python `d.get(key, dflt)`. -/
def dict_get (d : List (String × ℚ)) (key : String) (dflt : ℚ) : ℚ :=
  match d.find? (fun p => p.1 == key) with
  | some p => p.2
  | none => dflt

/-- Python `int()` on a rational: truncation toward zero. -/
def pyTruncQ (q : ℚ) : ℤ :=
  if 0 ≤ q then ⌊q⌋ else ⌈q⌉

/-- Python `int()` on a real: truncation toward zero. -/
noncomputable def pyTrunc (x : ℝ) : ℤ :=
  if 0 ≤ x then ⌊x⌋ else ⌈x⌉

/-- DecisionConfig constant. -/
def DecisionConfig.NEED_WEIGHT : ℚ := 1.0

/-- DecisionConfig constant. -/
def DecisionConfig.PERSONALITY_WEIGHT : ℚ := 0.5

/-- DecisionConfig constant. -/
def DecisionConfig.SOCIAL_WEIGHT : ℚ := 2.0

/-- DecisionConfig constant (disabled location affinity). -/
def DecisionConfig.AFFINITY_WEIGHT : ℚ := 0.0

/-- DecisionConfig constant. -/
def DecisionConfig.RECENCY_WEIGHT : ℚ := 0.1

/-- DecisionConfig constant. -/
def DecisionConfig.RANDOMNESS_WEIGHT : ℚ := 0.3

/-- DecisionConfig constant. -/
def DecisionConfig.ACTIVITY_BASE_BONUS : ℚ := -100.0

/-- DecisionConfig constant. -/
def DecisionConfig.CONVERSATION_BASE_BONUS : ℚ := 8.0

/-- DecisionConfig constant. -/
def DecisionConfig.MOVEMENT_BASE_BONUS : ℚ := 8.0

/-- DecisionConfig constant. -/
def DecisionConfig.SOFTMAX_TEMPERATURE : ℚ := 0.3

/-- DecisionConfig constant. -/
def DecisionConfig.CONVERSATION_RADIUS : ℚ := 15

/-- DecisionConfig constant. -/
def DecisionConfig.SOCIAL_APPROACH_RADIUS : ℚ := 30

/-- DecisionConfig constant. -/
def DecisionConfig.RECENT_INTERACTION_HOURS : ℚ := 0.05

/-- DecisionConfig constant (disabled). -/
def DecisionConfig.ENERGY_DECAY : ℚ := 0.0

/-- DecisionConfig constant (disabled). -/
def DecisionConfig.HUNGER_GROWTH : ℚ := 0.0

/-- DecisionConfig constant. -/
def DecisionConfig.LONELINESS_GROWTH : ℚ := 0.02

/-- DecisionConfig constant. -/
def DecisionConfig.SOCIAL_WANDER_INFLUENCE : ℚ := 0.5

/-- DecisionConfig constant. -/
def DecisionConfig.WANDER_RANDOMNESS : ℚ := 0.5

/-- DecisionConfig constant. -/
def DecisionConfig.MAP_WIDTH : ℤ := 60

/-- DecisionConfig constant. -/
def DecisionConfig.MAP_HEIGHT : ℤ := 40

/-- DecisionConfig constant. -/
def DecisionConfig.MIN_CONVERSATION_MESSAGES : ℕ := 3

/-- DecisionConfig constant. -/
def DecisionConfig.MAX_CONVERSATION_MESSAGES : ℕ := 12

/-- DecisionConfig constant. -/
def DecisionConfig.CONVERSATION_END_CHANCE : ℚ := 0.15

/-- Embedding of `apply_state_decay` (`agent_engine.py`): natural
decay/growth of needs, scaled by elapsed seconds normalized to a
5-minute tick.  `now` is the `datetime.utcnow()` used for `updated_at`. -/
def apply_state_decay (state : AgentState) (elapsed_seconds : ℚ) (now : ℚ) : AgentState :=
  let tick_factor := elapsed_seconds / 300.0
  let new_energy : ℚ := 1.0
  let new_hunger : ℚ := 0.0
  let new_loneliness := min 1.0 (state.loneliness + DecisionConfig.LONELINESS_GROWTH * tick_factor)
  let new_mood := max 0.3 (state.mood * (1.0 - 0.005 * tick_factor))
  { state with
    energy := new_energy
    hunger := new_hunger
    loneliness := new_loneliness
    mood := new_mood
    updated_at := some now }

/-- Embedding of `apply_interaction_effects` (`agent_engine.py`): apply a
dict of need deltas, clamping each need to its range. -/
def apply_interaction_effects (state : AgentState) (effects : List (String × ℚ)) (now : ℚ) : AgentState :=
  let new_energy := max 0.0 (min 1.0 (state.energy + dict_get effects "energy" 0))
  let new_hunger := max 0.0 (min 1.0 (state.hunger + dict_get effects "hunger" 0))
  let new_loneliness := max 0.0 (min 1.0 (state.loneliness + dict_get effects "loneliness" 0))
  let new_mood := max (-1.0) (min 1.0 (state.mood + dict_get effects "mood" 0))
  { state with
    energy := new_energy
    hunger := new_hunger
    loneliness := new_loneliness
    mood := new_mood
    updated_at := some now }

/-- Embedding of `update_social_memory` (`agent_database.py`), as the
edge value it returns (the database write carries the same fields).
`existing` is the result of the `get_social_memory` lookup; `new_id` is
the fresh `uuid4` used when creating; `now` is `datetime.utcnow()`. -/
def update_social_memory (existing : Option SocialMemory)
    (from_avatar_id to_avatar_id : String)
    (sentiment_delta familiarity_delta : ℚ)
    (conversation_topic : Option String)
    (new_id : String) (now : ℚ) : SocialMemory :=
  match existing with
  | some e =>
    let new_sentiment := max (-1.0) (min 1.0 (e.sentiment + sentiment_delta))
    let new_familiarity := max 0.0 (min 1.0 (e.familiarity + familiarity_delta))
    { id := e.id
      from_avatar_id := from_avatar_id
      to_avatar_id := to_avatar_id
      sentiment := new_sentiment
      familiarity := new_familiarity
      interaction_count := e.interaction_count + 1
      last_interaction := some now
      last_conversation_topic :=
        match conversation_topic with
        | some t => if t ≠ "" then some t else e.last_conversation_topic
        | none => e.last_conversation_topic }
  | none =>
    let initial_sentiment := max (-1.0) (min 1.0 (0.5 + sentiment_delta))
    let initial_familiarity := max 0.0 (min 1.0 familiarity_delta)
    { id := some new_id
      from_avatar_id := from_avatar_id
      to_avatar_id := to_avatar_id
      sentiment := initial_sentiment
      familiarity := initial_familiarity
      interaction_count := 1
      last_interaction := some now
      last_conversation_topic := conversation_topic }

/-- Embedding of `calculate_need_satisfaction` (`agent_engine.py`).  The
`target`/`location` arguments are unused by the body, as in the source. -/
def calculate_need_satisfaction (action : ActionType) (state : AgentState)
    (_target : Option ActionTarget) (_location : Option WorldLocation) : ℚ :=
  let score : ℚ := 0.0
  let score := if action ∈ [ActionType.INTERACT_FOOD, .INTERACT_KARAOKE,
      .INTERACT_REST, .INTERACT_SOCIAL_HUB, .INTERACT_WANDER_POINT]
    then score - 100.0 else score
  let score := if action = .WALK_TO_LOCATION then score - 100.0 else score
  let score := if action ∈ [ActionType.INITIATE_CONVERSATION, .JOIN_CONVERSATION]
    then score + DecisionConfig.CONVERSATION_BASE_BONUS + state.loneliness * 3.0 + 2.0
    else score
  let score := if action = .LEAVE_CONVERSATION
    then score + (1.0 - state.loneliness) * 3.0 + 1.0 else score
  let score := if action = .MOVE
    then score + DecisionConfig.MOVEMENT_BASE_BONUS + state.loneliness * 2.0 + 3.0
    else score
  let score := if action = .WANDER
    then score + DecisionConfig.MOVEMENT_BASE_BONUS * 0.8 + 2.0 + (1.0 - state.loneliness) * 2.0
    else score
  let score := if action = .IDLE then score - 50.0 else score
  let score := if action = .STAND_STILL then score - 50.0 else score
  score

/-- Small helper: bounds of the `max lo (min hi x)` clamp, with slack for
literal conversions (`0.0` vs `0`). -/
theorem clamp_bounds (lo hi lo2 hi2 x : ℚ) (h1 : lo2 ≤ lo) (h2 : lo ≤ hi2) (h3 : hi ≤ hi2) :
    lo2 ≤ max lo (min hi x) ∧ max lo (min hi x) ≤ hi2 :=
  ⟨h1.trans (le_max_left _ _), max_le h2 ((min_le_left _ _).trans h3)⟩

/-- Concrete valid AgentState (all pydantic bounds satisfied, mood at the
declared lower bound −1) used to refute claim C1. -/
def c1_state : AgentState :=
  { avatar_id := "a1"
    energy := 0.5
    hunger := 0.5
    loneliness := 0.5
    mood := -1
    current_action := some "idle"
    current_action_target := none
    action_started_at := none
    action_expires_at := none
    last_tick := none
    tick_lock_until := none
    created_at := none
    updated_at := none }

/-- C1 fails as stated: for the valid state `c1_state` (mood = −1, all
needs within their declared bounds) and elapsed time 600000 s,
`apply_state_decay` computes mood 9, far outside [−1, 1] (the pydantic
constructor would reject this value at runtime, i.e. the call raises
rather than returning an in-range state). -/
theorem claim_C1_counterexample :
    (-1 ≤ c1_state.mood ∧ c1_state.mood ≤ 1 ∧ 0 ≤ c1_state.loneliness ∧
      c1_state.loneliness ≤ 1 ∧ 0 ≤ c1_state.energy ∧ c1_state.energy ≤ 1 ∧
      0 ≤ c1_state.hunger ∧ c1_state.hunger ≤ 1) ∧
    (0 : ℚ) ≤ 600000 ∧
    (apply_state_decay c1_state 600000 0).mood = 9 ∧
    ¬ (apply_state_decay c1_state 600000 0).mood ≤ 1 := by
  have hmood : (apply_state_decay c1_state 600000 0).mood = 9 := by
    norm_num [apply_state_decay, c1_state, max_def]
  exact ⟨by norm_num [c1_state], by norm_num, hmood, by rw [hmood]; norm_num⟩

/-- C1 amended: for a valid input state and nonnegative elapsed time,
`apply_state_decay` pins energy to 1 and hunger to 0, never decreases
loneliness and caps it at 1, and keeps mood ≥ 0.3; mood stays ≤ 1
provided the input mood is nonnegative (for negative input mood and
sufficiently large elapsed time the multiplicative factor turns negative
and the product exceeds 1, per `claim_C1_counterexample`).
`apply_interaction_effects` keeps all four needs inside their declared
ranges unconditionally, for arbitrary input magnitudes. -/
theorem claim_C1_amended (state : AgentState) (elapsed now now2 : ℚ)
    (effects : List (String × ℚ))
    (h_elapsed : 0 ≤ elapsed)
    (h_lon0 : 0 ≤ state.loneliness) (h_lon1 : state.loneliness ≤ 1) :
    (apply_state_decay state elapsed now).energy = 1 ∧
    (apply_state_decay state elapsed now).hunger = 0 ∧
    state.loneliness ≤ (apply_state_decay state elapsed now).loneliness ∧
    0 ≤ (apply_state_decay state elapsed now).loneliness ∧
    (apply_state_decay state elapsed now).loneliness ≤ 1 ∧
    (0.3 : ℚ) ≤ (apply_state_decay state elapsed now).mood ∧
    (0 ≤ state.mood → state.mood ≤ 1 → (apply_state_decay state elapsed now).mood ≤ 1) ∧
    (0 ≤ (apply_interaction_effects state effects now2).energy ∧
      (apply_interaction_effects state effects now2).energy ≤ 1) ∧
    (0 ≤ (apply_interaction_effects state effects now2).hunger ∧
      (apply_interaction_effects state effects now2).hunger ≤ 1) ∧
    (0 ≤ (apply_interaction_effects state effects now2).loneliness ∧
      (apply_interaction_effects state effects now2).loneliness ≤ 1) ∧
    (-1 ≤ (apply_interaction_effects state effects now2).mood ∧
      (apply_interaction_effects state effects now2).mood ≤ 1) := by
  have hgrow : 0 ≤ DecisionConfig.LONELINESS_GROWTH * (elapsed / 300.0) := by
    have h1 : (0 : ℚ) ≤ elapsed / 300.0 := by positivity
    have hg : (0 : ℚ) ≤ DecisionConfig.LONELINESS_GROWTH := by
      norm_num [DecisionConfig.LONELINESS_GROWTH]
    exact mul_nonneg hg h1
  refine ⟨by norm_num [apply_state_decay], by norm_num [apply_state_decay],
    ?_, ?_, ?_, ?_, ?_, ?_, ?_, ?_, ?_⟩
  · show state.loneliness ≤ min 1.0 (state.loneliness + DecisionConfig.LONELINESS_GROWTH * (elapsed / 300.0))
    exact le_min (h_lon1.trans (by norm_num)) (by linarith)
  · show (0 : ℚ) ≤ min 1.0 (state.loneliness + DecisionConfig.LONELINESS_GROWTH * (elapsed / 300.0))
    exact le_min (by norm_num) (by linarith)
  · show min 1.0 (state.loneliness + DecisionConfig.LONELINESS_GROWTH * (elapsed / 300.0)) ≤ 1
    exact le_trans (min_le_left _ _) (by norm_num)
  · show (0.3 : ℚ) ≤ max 0.3 (state.mood * (1.0 - 0.005 * (elapsed / 300.0)))
    exact le_max_left _ _
  · intro hm0 hm1
    show max 0.3 (state.mood * (1.0 - 0.005 * (elapsed / 300.0))) ≤ 1
    refine max_le (by norm_num) ?_
    nlinarith [mul_nonneg hm0 h_elapsed]
  · show (0 : ℚ) ≤ max 0.0 (min 1.0 (state.energy + dict_get effects "energy" 0)) ∧
      max 0.0 (min 1.0 (state.energy + dict_get effects "energy" 0)) ≤ 1
    exact clamp_bounds 0.0 1.0 0 1 _ (by norm_num) (by norm_num) (by norm_num)
  · show (0 : ℚ) ≤ max 0.0 (min 1.0 (state.hunger + dict_get effects "hunger" 0)) ∧
      max 0.0 (min 1.0 (state.hunger + dict_get effects "hunger" 0)) ≤ 1
    exact clamp_bounds 0.0 1.0 0 1 _ (by norm_num) (by norm_num) (by norm_num)
  · show (0 : ℚ) ≤ max 0.0 (min 1.0 (state.loneliness + dict_get effects "loneliness" 0)) ∧
      max 0.0 (min 1.0 (state.loneliness + dict_get effects "loneliness" 0)) ≤ 1
    exact clamp_bounds 0.0 1.0 0 1 _ (by norm_num) (by norm_num) (by norm_num)
  · show (-1 : ℚ) ≤ max (-1.0) (min 1.0 (state.mood + dict_get effects "mood" 0)) ∧
      max (-1.0) (min 1.0 (state.mood + dict_get effects "mood" 0)) ≤ 1
    exact clamp_bounds (-1.0) 1.0 (-1) 1 _ (by norm_num) (by norm_num) (by norm_num)

/-- Witness for `claim_C1_amended` at a concrete valid state and elapsed
time. -/
theorem claim_C1_witness :
    (0 : ℚ) ≤ 300 ∧ 0 ≤ c1_state.loneliness ∧ c1_state.loneliness ≤ 1 ∧
    (apply_state_decay c1_state 300 0).energy = 1 := by
  refine ⟨by norm_num, by norm_num [c1_state], by norm_num [c1_state], ?_⟩
  exact (claim_C1_amended c1_state 300 0 0 [] (by norm_num) (by norm_num [c1_state])
    (by norm_num [c1_state])).1

/-- Concrete state with critically high hunger (0.8 > 0.7), used for C4. -/
def c4_state : AgentState :=
  { c1_state with hunger := 0.8 }

/-- Concrete reachable food location used for C4. -/
def c4_location : WorldLocation :=
  { id := "loc-food-1"
    name := "Food Stand"
    location_type := .FOOD
    x := 12
    y := 9
    effects := [("hunger", -0.4), ("mood", 0.1)] }

/-- Concrete travel target pointing at `c4_location`, used for C4. -/
def c4_target : ActionTarget :=
  { target_type := "location", target_id := some "loc-food-1", name := some "Food Stand",
    x := some 12, y := some 9 }

/-- C4 fails as stated: with hunger 0.8 and a reachable food location,
`calculate_need_satisfaction` scores WALK_TO_LOCATION at −100 (the
"agents never use locations" penalty) and IDLE at −50, so the travel
score does not exceed the IDLE score — the inequality is reversed. -/
theorem claim_C4_counterexample :
    (0.7 : ℚ) < c4_state.hunger ∧
    calculate_need_satisfaction .WALK_TO_LOCATION c4_state (some c4_target) (some c4_location) = -100 ∧
    calculate_need_satisfaction .IDLE c4_state none none = -50 ∧
    ¬ (calculate_need_satisfaction .IDLE c4_state none none <
        calculate_need_satisfaction .WALK_TO_LOCATION c4_state (some c4_target) (some c4_location)) := by
  have h1 : calculate_need_satisfaction .WALK_TO_LOCATION c4_state (some c4_target) (some c4_location) = -100 := by
    simp [calculate_need_satisfaction]
    norm_num
  have h2 : calculate_need_satisfaction .IDLE c4_state none none = -50 := by
    simp [calculate_need_satisfaction]
    norm_num
  refine ⟨by norm_num [c4_state, c1_state], h1, h2, ?_⟩
  rw [h1, h2]
  norm_num

/-- C4 amended: under the configured penalties, for any state with
hunger above 0.7 and any travel target/location, the need-satisfaction
score of IDLE (−50) strictly exceeds that of WALK_TO_LOCATION (−100):
the direction claimed by the spec is reversed by the code. -/
theorem claim_C4_amended (state : AgentState) (target : Option ActionTarget)
    (location : Option WorldLocation) (h_hunger : 0.7 < state.hunger) :
    calculate_need_satisfaction .WALK_TO_LOCATION state target location <
    calculate_need_satisfaction .IDLE state none none := by
  have h1 : calculate_need_satisfaction .WALK_TO_LOCATION state target location = -100 := by
    simp [calculate_need_satisfaction]
    norm_num
  have h2 : calculate_need_satisfaction .IDLE state none none = -50 := by
    simp [calculate_need_satisfaction]
    norm_num
  rw [h1, h2]
  norm_num

/-- Witness for `claim_C4_amended` at the concrete hungry state. -/
theorem claim_C4_witness :
    (0.7 : ℚ) < c4_state.hunger ∧
    calculate_need_satisfaction .WALK_TO_LOCATION c4_state (some c4_target) (some c4_location) <
      calculate_need_satisfaction .IDLE c4_state none none :=
  ⟨by norm_num [c4_state, c1_state],
    claim_C4_amended c4_state (some c4_target) (some c4_location) (by norm_num [c4_state, c1_state])⟩

/-- C7: the social-memory upsert.  Creation (no existing edge) returns
sentiment clamp(0.5 + Δs), familiarity clamp(Δf), count 1; update
returns count + 1 and clamped accumulations; in every case sentiment
lands in [−1, 1] and familiarity in [0, 1]. -/
theorem claim_C7_theorem (existing : Option SocialMemory) (e : SocialMemory)
    (a b : String) (sd fd : ℚ) (topic : Option String) (nid : String) (now : ℚ) :
    ((update_social_memory none a b sd fd topic nid now).sentiment = max (-1) (min 1 (0.5 + sd)) ∧
      (update_social_memory none a b sd fd topic nid now).familiarity = max 0 (min 1 fd) ∧
      (update_social_memory none a b sd fd topic nid now).interaction_count = 1) ∧
    ((update_social_memory (some e) a b sd fd topic nid now).sentiment = max (-1) (min 1 (e.sentiment + sd)) ∧
      (update_social_memory (some e) a b sd fd topic nid now).familiarity = max 0 (min 1 (e.familiarity + fd)) ∧
      (update_social_memory (some e) a b sd fd topic nid now).interaction_count = e.interaction_count + 1) ∧
    (-1 ≤ (update_social_memory existing a b sd fd topic nid now).sentiment ∧
      (update_social_memory existing a b sd fd topic nid now).sentiment ≤ 1 ∧
      0 ≤ (update_social_memory existing a b sd fd topic nid now).familiarity ∧
      (update_social_memory existing a b sd fd topic nid now).familiarity ≤ 1) := by
  have hnum : ((-1.0 : ℚ) = -1) ∧ ((1.0 : ℚ) = 1) ∧ ((0.0 : ℚ) = 0) := by norm_num
  refine ⟨⟨?_, ?_, rfl⟩, ⟨?_, ?_, rfl⟩, ?_⟩
  · show max (-1.0) (min 1.0 (0.5 + sd)) = max (-1) (min 1 (0.5 + sd))
    rw [hnum.1, hnum.2.1]
  · show max 0.0 (min 1.0 fd) = max 0 (min 1 fd)
    rw [hnum.2.1, hnum.2.2]
  · show max (-1.0) (min 1.0 (e.sentiment + sd)) = max (-1) (min 1 (e.sentiment + sd))
    rw [hnum.1, hnum.2.1]
  · show max 0.0 (min 1.0 (e.familiarity + fd)) = max 0 (min 1 (e.familiarity + fd))
    rw [hnum.2.1, hnum.2.2]
  · match existing with
    | none =>
      refine ⟨?_, ?_, ?_, ?_⟩
      · exact (clamp_bounds (-1.0) 1.0 (-1) 1 _ (by norm_num) (by norm_num) (by norm_num)).1
      · exact (clamp_bounds (-1.0) 1.0 (-1) 1 _ (by norm_num) (by norm_num) (by norm_num)).2
      · exact (clamp_bounds 0.0 1.0 0 1 _ (by norm_num) (by norm_num) (by norm_num)).1
      · exact (clamp_bounds 0.0 1.0 0 1 _ (by norm_num) (by norm_num) (by norm_num)).2
    | some e2 =>
      refine ⟨?_, ?_, ?_, ?_⟩
      · exact (clamp_bounds (-1.0) 1.0 (-1) 1 _ (by norm_num) (by norm_num) (by norm_num)).1
      · exact (clamp_bounds (-1.0) 1.0 (-1) 1 _ (by norm_num) (by norm_num) (by norm_num)).2
      · exact (clamp_bounds 0.0 1.0 0 1 _ (by norm_num) (by norm_num) (by norm_num)).1
      · exact (clamp_bounds 0.0 1.0 0 1 _ (by norm_num) (by norm_num) (by norm_num)).2

/-- C9: `apply_interaction_effects` is frame-preserving — it touches only
the four need fields and `updated_at`; all action bookkeeping and
identity fields of the input state are returned unchanged. -/
theorem claim_C9_theorem (state : AgentState) (effects : List (String × ℚ)) (now : ℚ) :
    (apply_interaction_effects state effects now).avatar_id = state.avatar_id ∧
    (apply_interaction_effects state effects now).current_action = state.current_action ∧
    (apply_interaction_effects state effects now).current_action_target = state.current_action_target ∧
    (apply_interaction_effects state effects now).action_started_at = state.action_started_at ∧
    (apply_interaction_effects state effects now).action_expires_at = state.action_expires_at ∧
    (apply_interaction_effects state effects now).last_tick = state.last_tick ∧
    (apply_interaction_effects state effects now).tick_lock_until = state.tick_lock_until ∧
    (apply_interaction_effects state effects now).created_at = state.created_at ∧
    (apply_interaction_effects state effects now).updated_at = some now :=
  ⟨rfl, rfl, rfl, rfl, rfl, rfl, rfl, rfl, rfl⟩

/-- Decision record returned by the conversation end gate. -/
structure EndDecision where
  should_end : Bool
  farewell_message : Option String := none
  reason : Option String := none
deriving DecidableEq, Repr

/-- Farewell templates of the forced-end branch of
`decide_end_conversation` (`conversation.py`). -/
def forced_end_farewells (partner_name : String) : List String :=
  ["Hey " ++ partner_name ++ ", I should get going! Great chat!",
   "Gotta run, catch you later " ++ partner_name ++ "!",
   "Nice talking to you " ++ partner_name ++ "! See you around!",
   "I'm gonna walk around for a bit. Talk later!"]

/-- Farewell templates of the probabilistic-end branch of
`decide_end_conversation` (`conversation.py`). -/
def natural_end_farewells (partner_name : String) : List String :=
  ["Anyway, gotta run! Talk later " ++ partner_name ++ "!",
   "Alright, gonna walk around. See ya!",
   "Nice chat! Catch you later!",
   "I'm gonna explore a bit. Talk soon!",
   "Good talk! See you around!"]

/-- Embedding of `decide_end_conversation` (`conversation.py`), with the
database client available (the no-database fallback at the top of the
source is not modelled).  `message_count` is `len(conversation_history)`;
`is_rude_last` is the `is_rude` verdict of `analyze_message_sentiment`
on the last message; `end_draw` is the `random.random()` sample;
`pick` indexes the `random.choice` of a farewell template; `llm` is the
external language-model verdict (`should_end`, farewell) when an LLM
client is configured, `none` otherwise.  Note the hard-coded thresholds
3 and 10 and rates 0.15/0.10/0.8: the `DecisionConfig` conversation
constants are not consulted by this function. -/
def decide_end_conversation (partner_name : String) (message_count : ℕ)
    (is_rude_last : Bool) (end_draw : ℚ) (pick : ℕ)
    (llm : Option (Bool × Option String)) : EndDecision :=
  if message_count < 3 then
    if is_rude_last then
      { should_end := true
        farewell_message := some "I don't appreciate that. Bye."
        reason := some "Received rude message" }
    else { should_end := false }
  else
    let end_probability := min (0.15 + ((message_count : ℚ) - 3) * 0.10) 0.8
    if message_count ≥ 10 then
      { should_end := true
        farewell_message := some ((forced_end_farewells partner_name).getD
          (pick % (forced_end_farewells partner_name).length) "")
        reason := some "Conversation long enough" }
    else if end_draw < end_probability then
      { should_end := true
        farewell_message := some ((natural_end_farewells partner_name).getD
          (pick % (natural_end_farewells partner_name).length) "")
        reason := some "Natural ending" }
    else
      match llm with
      | some (b, fw) =>
        { should_end := b, farewell_message := if b then fw else none, reason := none }
      | none =>
        if message_count > 20 then
          { should_end := true
            farewell_message := some "Hey, I should get going. Talk later!"
            reason := some "Conversation getting long" }
        else { should_end := false }

/-- C8 fails as stated: at message count 10 — which is strictly below
the configured maximum `MAX_CONVERSATION_MESSAGES = 12`, so the claim
places it in the probabilistic regime — the gate forces an end even when
the uniform draw 0.9 is at or above the claimed (capped) end probability
0.8: the forced-end threshold is the hard-coded 10, not the configured
maximum. -/
theorem claim_C8_counterexample :
    3 ≤ 10 ∧ 10 < DecisionConfig.MAX_CONVERSATION_MESSAGES ∧
    ¬ ((0.9 : ℚ) < min (0.15 + ((10 : ℚ) - 3) * 0.10) 0.8) ∧
    (decide_end_conversation "Sam" 10 false 0.9 0 none).should_end = true ∧
    (decide_end_conversation "Sam" 10 false 0.9 0 none).farewell_message.isSome = true := by
  refine ⟨by norm_num, by norm_num [DecisionConfig.MAX_CONVERSATION_MESSAGES], ?_, ?_, ?_⟩
  · rw [min_def]
    norm_num
  · simp [decide_end_conversation]
  · simp [decide_end_conversation]

/-- C8 amended: below 3 messages the gate ends only on a hostile last
message (with a farewell); at 10 or more messages (the hard-coded
threshold, not the configured maximum of 12) it forces an end with a
non-null farewell; for counts 3–9 it ends exactly when the fresh uniform
draw is below 0.15 + 0.10·(count − 3) (the 0.8 cap never binds in this
range), falling back to the external-LLM verdict, or to no end without
one, when the draw fails. -/
theorem claim_C8_amended (partner : String) (count : ℕ) (rude : Bool)
    (r : ℚ) (pick : ℕ) (llm : Option (Bool × Option String)) :
    (count < 3 → rude = false →
      (decide_end_conversation partner count rude r pick llm).should_end = false) ∧
    (count < 3 → rude = true →
      (decide_end_conversation partner count rude r pick llm).should_end = true ∧
      (decide_end_conversation partner count rude r pick llm).farewell_message.isSome = true) ∧
    (10 ≤ count →
      (decide_end_conversation partner count rude r pick llm).should_end = true ∧
      (decide_end_conversation partner count rude r pick llm).farewell_message.isSome = true) ∧
    (3 ≤ count → count ≤ 9 → r < 0.15 + ((count : ℚ) - 3) * 0.10 →
      (decide_end_conversation partner count rude r pick llm).should_end = true) ∧
    (3 ≤ count → count ≤ 9 → 0.15 + ((count : ℚ) - 3) * 0.10 ≤ r → llm = none →
      (decide_end_conversation partner count rude r pick llm).should_end = false) := by
  refine ⟨?_, ?_, ?_, ?_, ?_⟩
  · intro h1 h2
    simp [decide_end_conversation, h1, h2]
  · intro h1 h2
    simp [decide_end_conversation, h1, h2]
  · intro h10
    have h3 : ¬ count < 3 := by omega
    simp [decide_end_conversation, h3, h10]
  · intro h3 h9 hr
    have hlt3 : ¬ count < 3 := by omega
    have hlt10 : ¬ count ≥ 10 := by omega
    have hc9 : (count : ℚ) ≤ 9 := by exact_mod_cast h9
    have hple : (0.15 + ((count : ℚ) - 3) * 0.10) ≤ 0.8 := by linarith
    have hmin : min (0.15 + ((count : ℚ) - 3) * 0.10) 0.8 = 0.15 + ((count : ℚ) - 3) * 0.10 :=
      min_eq_left hple
    simp [decide_end_conversation, hlt3, hlt10, hmin, hr]
  · intro h3 h9 hr hllm
    have hlt3 : ¬ count < 3 := by omega
    have hlt10 : ¬ count ≥ 10 := by omega
    have h20 : ¬ count > 20 := by omega
    have hc9 : (count : ℚ) ≤ 9 := by exact_mod_cast h9
    have hple : (0.15 + ((count : ℚ) - 3) * 0.10) ≤ 0.8 := by linarith
    have hmin : min (0.15 + ((count : ℚ) - 3) * 0.10) 0.8 = 0.15 + ((count : ℚ) - 3) * 0.10 :=
      min_eq_left hple
    have hnr : ¬ r < 0.15 + ((count : ℚ) - 3) * 0.10 := not_lt.mpr hr
    simp [decide_end_conversation, hlt3, hlt10, hmin, hnr, hllm, h20]

/-- Witness for `claim_C8_amended`: at 5 messages a draw of 0.2 (below
the end probability 0.35) ends the conversation. -/
theorem claim_C8_witness :
    3 ≤ 5 ∧ 5 ≤ 9 ∧ (0.2 : ℚ) < 0.15 + ((5 : ℚ) - 3) * 0.10 ∧
    (decide_end_conversation "Sam" 5 false 0.2 0 none).should_end = true :=
  ⟨by norm_num, by norm_num, by norm_num,
    (claim_C8_amended "Sam" 5 false 0.2 0 none).2.2.2.1 (by norm_num) (by norm_num) (by norm_num)⟩

/-- Accumulation loop of `calculate_social_wander_target`
(`agent_engine.py`): fold over nearby avatars computing
(social_dx, social_dy, total_weight).  All arithmetic here is rational. -/
def wander_influences (context : AgentContext) : ℚ × ℚ × ℚ :=
  context.nearby_avatars.foldl (fun acc nearby =>
    let memory := context.social_memories.find? (fun m => m.to_avatar_id == nearby.avatar_id)
    let dx : ℚ := ((nearby.x - context.x : ℤ) : ℚ)
    let dy : ℚ := ((nearby.y - context.y : ℤ) : ℚ)
    let distance : ℚ := max 1 nearby.distance
    if distance > 0 then
      let dx_norm := dx / distance
      let dy_norm := dy / distance
      let sentiment : ℚ := match memory with
        | some m => m.sentiment
        | none => if context.state.loneliness > 0.5 then 0.1 else 0.0
      let familiarity : ℚ := match memory with
        | some m => m.familiarity
        | none => 0.0
      let distance_weight := 1.0 / (1.0 + distance * 0.1)
      let influence_strength := sentiment * distance_weight
      let influence_strength := influence_strength * (1.0 + familiarity * 0.5)
      let influence_strength := if sentiment > 0 ∧ context.state.loneliness > 0.5
        then influence_strength * (1.0 + context.state.loneliness) else influence_strength
      let influence_strength := if sentiment < 0 ∧ context.state.mood < 0.3
        then influence_strength * 1.5 else influence_strength
      (acc.1 + dx_norm * influence_strength, acc.2.1 + dy_norm * influence_strength,
        acc.2.2 + |influence_strength|)
    else acc) (0.0, 0.0, 0.0)

/-- Embedding of `calculate_social_wander_target` (`agent_engine.py`).
`base_angle` and `base_distance` are the `random.uniform(0, 2π)` and
`random.uniform(5, 15)` draws. -/
noncomputable def calculate_social_wander_target (context : AgentContext)
    (base_angle base_distance : ℝ) : ℤ × ℤ :=
  let infl := wander_influences context
  let total_weight := infl.2.2
  let social : ℝ × ℝ :=
    if total_weight > 0 then
      let sdx : ℝ := ((infl.1 / total_weight : ℚ) : ℝ)
      let sdy : ℝ := ((infl.2.1 / total_weight : ℚ) : ℝ)
      let social_magnitude := Real.sqrt (sdx ^ 2 + sdy ^ 2)
      if social_magnitude > 0 then
        ((sdx / social_magnitude) * base_distance, (sdy / social_magnitude) * base_distance)
      else (sdx, sdy)
    else (((infl.1 : ℚ) : ℝ), ((infl.2.1 : ℚ) : ℝ))
  let random_dx := Real.cos base_angle * base_distance
  let random_dy := Real.sin base_angle * base_distance
  let final : ℝ × ℝ :=
    if context.nearby_avatars.length = 0 then (random_dx, random_dy)
    else
      (social.1 * ((DecisionConfig.SOCIAL_WANDER_INFLUENCE : ℚ) : ℝ) +
        random_dx * ((DecisionConfig.WANDER_RANDOMNESS : ℚ) : ℝ),
       social.2 * ((DecisionConfig.SOCIAL_WANDER_INFLUENCE : ℚ) : ℝ) +
        random_dy * ((DecisionConfig.WANDER_RANDOMNESS : ℚ) : ℝ))
  let target_x := pyTrunc ((context.x : ℝ) + final.1)
  let target_y := pyTrunc ((context.y : ℝ) + final.2)
  (max 2 (min (DecisionConfig.MAP_WIDTH - 2) target_x),
   max 2 (min (DecisionConfig.MAP_HEIGHT - 2) target_y))

/-- C10: whatever the context and the random draws, the wander target is
an integer pair clamped to the map interior 2 ≤ x ≤ 58, 2 ≤ y ≤ 38. -/
theorem claim_C10_theorem (context : AgentContext) (base_angle base_distance : ℝ) :
    2 ≤ (calculate_social_wander_target context base_angle base_distance).1 ∧
    (calculate_social_wander_target context base_angle base_distance).1 ≤ 58 ∧
    2 ≤ (calculate_social_wander_target context base_angle base_distance).2 ∧
    (calculate_social_wander_target context base_angle base_distance).2 ≤ 38 := by
  have hw : DecisionConfig.MAP_WIDTH - 2 = (58 : ℤ) := by
    norm_num [DecisionConfig.MAP_WIDTH]
  have hh : DecisionConfig.MAP_HEIGHT - 2 = (38 : ℤ) := by
    norm_num [DecisionConfig.MAP_HEIGHT]
  simp only [calculate_social_wander_target, hw, hh]
  refine ⟨le_max_left _ _, max_le (by norm_num) (min_le_left _ _),
    le_max_left _ _, max_le (by norm_num) (min_le_left _ _)⟩

/-- Embedding of `calculate_personality_alignment` (`agent_engine.py`). -/
def calculate_personality_alignment (action : ActionType)
    (personality : AgentPersonality) (_location : Option WorldLocation) : ℚ :=
  let score : ℚ := 0.0
  let score := if action ∈ [ActionType.INITIATE_CONVERSATION, .JOIN_CONVERSATION]
    then score + personality.sociability * 2.0 + 1.0 else score
  let score := if action = .WANDER
    then score + personality.curiosity * 1.0 + personality.energy_baseline * 0.3 + 0.4
    else score
  let score := if action = .JOIN_CONVERSATION
    then score + personality.agreeableness * 0.8 else score
  let score := if action = .INITIATE_CONVERSATION
    then score + personality.agreeableness * 0.5 else score
  let score := if action ∈ [ActionType.IDLE, .INTERACT_REST]
    then score + (1.0 - personality.energy_baseline) * 0.3 else score
  let score := if action ∈ [ActionType.WANDER, .INTERACT_KARAOKE, .INTERACT_WANDER_POINT,
      .INTERACT_FOOD, .INTERACT_SOCIAL_HUB]
    then score + personality.energy_baseline * 0.5 else score
  let score := if action = .INTERACT_SOCIAL_HUB
    then score + personality.sociability * 0.8 else score
  let score := if action = .INTERACT_KARAOKE
    then score + personality.sociability * 0.6 + 0.3 else score
  let score := if action = .INTERACT_FOOD then score + 0.4 else score
  let score := if action = .INTERACT_WANDER_POINT
    then score + personality.curiosity * 0.7 else score
  score

/-- Embedding of `calculate_social_bias` (`agent_engine.py`). -/
def calculate_social_bias (action : ActionType)
    (target_avatar : Option NearbyAvatar) (social_memory : Option SocialMemory) : ℚ :=
  match target_avatar with
  | none => 0.0
  | some ta =>
    let score : ℚ := 0.0
    let score := match social_memory with
      | some sm =>
        let score := if action = .INITIATE_CONVERSATION then
            let score := score + sm.sentiment * 0.8 + sm.familiarity * 0.5
            let score := if sm.interaction_count > 3 then score + 0.2 else score
            let score := if sm.interaction_count > 10 then score + 0.2 else score
            let score := match sm.mutual_interests with
              | some interests =>
                if interests.length > 0
                then score + min ((interests.length : ℚ) * 0.1) 0.4 else score
              | none => score
            score
          else score
        let score := if sm.sentiment < -0.5 then score - 0.5 else score
        let score := if action = .AVOID_AVATAR then
            let score := score + |sm.sentiment| * 1.5
            if ta.distance ≤ 3 then score + 0.5 else score
          else score
        score
      | none =>
        if action = .INITIATE_CONVERSATION then score + 0.4 else score
    let score := if ta.is_online ∧ action = .INITIATE_CONVERSATION
      then score + 0.2 else score
    score

/-- Embedding of `calculate_world_affinity` (`agent_engine.py`). -/
def calculate_world_affinity (action : ActionType)
    (personality : AgentPersonality) (location : Option WorldLocation) : ℚ :=
  match location with
  | none => 0.0
  | some loc =>
    let affinity := dict_get personality.world_affinities loc.location_type.value 0.5
    if action ∈ [ActionType.WALK_TO_LOCATION, .INTERACT_FOOD, .INTERACT_KARAOKE,
        .INTERACT_REST, .INTERACT_SOCIAL_HUB, .INTERACT_WANDER_POINT] then
      if affinity ≥ 0.7 then 0.6 + (affinity - 0.7) * 2.0
      else if affinity ≥ 0.5 then 0.2 + (affinity - 0.5) * 2.0
      else if affinity ≥ 0.3 then (affinity - 0.3) * 1.0
      else (affinity - 0.3) * 1.0
    else 0.0

/-- Embedding of `calculate_recency_penalty` (`agent_engine.py`).  The
timezone normalization collapses under the rational-timestamp model;
`now` is the `datetime.utcnow()` reference. -/
def calculate_recency_penalty (action : ActionType)
    (_target_avatar : Option NearbyAvatar) (social_memory : Option SocialMemory)
    (active_cooldowns : List String) (target_location : Option WorldLocation)
    (now : ℚ) : ℚ :=
  let penalty : ℚ := 0.0
  let penalty := match social_memory with
    | some sm =>
      if action = .INITIATE_CONVERSATION then
        match sm.last_interaction with
        | some last_interaction =>
          let hours_since := (now - last_interaction) / 3600
          if hours_since < DecisionConfig.RECENT_INTERACTION_HOURS then
            penalty + 0.5 * (1.0 - hours_since / DecisionConfig.RECENT_INTERACTION_HOURS)
          else penalty
        | none => penalty
      else penalty
    | none => penalty
  let penalty := match target_location with
    | some loc => if loc.id ∈ active_cooldowns then penalty + 1.0 else penalty
    | none => penalty
  penalty

/-- Per-nearby-avatar arm of the candidate generation loop
(`generate_candidate_actions` in `agent_engine.py`): avoid disliked
close avatars, talk to close ones, approach ones within the social
radius. -/
noncomputable def candidate_for_nearby (context : AgentContext)
    (nearby : NearbyAvatar) : List CandidateAction :=
  let memory := context.social_memories.find? (fun m => m.to_avatar_id == nearby.avatar_id)
  let dislikes : Bool := match memory with
    | some m => decide (m.sentiment < -0.3)
    | none => false
  if dislikes ∧ nearby.distance ≤ DecisionConfig.CONVERSATION_RADIUS + 4 then
    let dx : ℤ := context.x - nearby.x
    let dy : ℤ := context.y - nearby.y
    let dist : ℝ := max 1 (Real.sqrt (((dx : ℝ)) ^ 2 + ((dy : ℝ)) ^ 2))
    let flee_x := pyTrunc ((context.x : ℝ) + ((dx : ℝ) / dist) * 5)
    let flee_y := pyTrunc ((context.y : ℝ) + ((dy : ℝ) / dist) * 5)
    let flee_x := max 1 (min 73 flee_x)
    let flee_y := max 1 (min 54 flee_y)
    [{ action_type := .AVOID_AVATAR
       target := some
         { target_type := "avatar"
           target_id := some nearby.avatar_id
           name := some ("away from " ++ nearby.avatar_id.take 8)
           x := some flee_x
           y := some flee_y } }]
  else if nearby.distance ≤ DecisionConfig.CONVERSATION_RADIUS then
    [{ action_type := .INITIATE_CONVERSATION
       target := some
         { target_type := "avatar"
           target_id := some nearby.avatar_id
           name := some (nearby.display_name.getD ("avatar " ++ nearby.avatar_id.take 8))
           x := some nearby.x
           y := some nearby.y } }]
  else if nearby.distance ≤ DecisionConfig.SOCIAL_APPROACH_RADIUS then
    [{ action_type := .MOVE
       target := some
         { target_type := "avatar"
           target_id := some nearby.avatar_id
           name := some ("towards " ++ (nearby.display_name.getD (nearby.avatar_id.take 8)))
           x := some nearby.x
           y := some nearby.y } }]
  else []

/-- Embedding of `generate_candidate_actions` (`agent_engine.py`): IDLE
and WANDER always; the social loop only outside conversations;
LEAVE_CONVERSATION only inside them.  The sequential `append` loop of
the source builds exactly this list. -/
noncomputable def generate_candidate_actions (context : AgentContext)
    (base_angle base_distance : ℝ) : List CandidateAction :=
  let wander_target := calculate_social_wander_target context base_angle base_distance
  let idle_action : CandidateAction := { action_type := .IDLE, target := none }
  let wander_action : CandidateAction :=
    { action_type := .WANDER
      target := some
        { target_type := "position"
          x := some wander_target.1
          y := some wander_target.2 } }
  let social_actions :=
    if context.in_conversation = false then
      context.nearby_avatars.flatMap (fun nearby => candidate_for_nearby context nearby)
    else []
  let leave_actions : List CandidateAction :=
    if context.in_conversation then [{ action_type := .LEAVE_CONVERSATION, target := none }]
    else []
  idle_action :: wander_action :: (social_actions ++ leave_actions)

/-- C5: candidate generation always yields a non-empty list holding IDLE
and a WANDER aimed at the social-bias-weighted wander target; while
conversing it holds LEAVE_CONVERSATION and no initiate/avoid/move
candidates. -/
theorem claim_C5_theorem (context : AgentContext) (base_angle base_distance : ℝ) :
    generate_candidate_actions context base_angle base_distance ≠ [] ∧
    (∃ a ∈ generate_candidate_actions context base_angle base_distance,
      a.action_type = ActionType.IDLE ∧ a.target = none) ∧
    (∃ a ∈ generate_candidate_actions context base_angle base_distance,
      a.action_type = ActionType.WANDER ∧
      a.target = some
        { target_type := "position"
          x := some (calculate_social_wander_target context base_angle base_distance).1
          y := some (calculate_social_wander_target context base_angle base_distance).2 }) ∧
    (context.in_conversation = true →
      (∃ a ∈ generate_candidate_actions context base_angle base_distance,
        a.action_type = ActionType.LEAVE_CONVERSATION) ∧
      (∀ a ∈ generate_candidate_actions context base_angle base_distance,
        a.action_type ≠ ActionType.INITIATE_CONVERSATION ∧
        a.action_type ≠ ActionType.AVOID_AVATAR ∧
        a.action_type ≠ ActionType.MOVE)) := by
  refine ⟨?_, ?_, ?_, ?_⟩
  · simp [generate_candidate_actions]
  · refine ⟨{ action_type := .IDLE, target := none }, ?_, rfl, rfl⟩
    simp [generate_candidate_actions]
  · refine ⟨⟨.WANDER, some ⟨"position", none, none,
        some (calculate_social_wander_target context base_angle base_distance).1,
        some (calculate_social_wander_target context base_angle base_distance).2⟩,
        0, 0, 0, 0, 0, 0, 0⟩, ?_, rfl, rfl⟩
    simp [generate_candidate_actions]
  · intro h
    constructor
    · refine ⟨{ action_type := .LEAVE_CONVERSATION, target := none }, ?_, rfl⟩
      simp [generate_candidate_actions, h]
    · intro a ha
      simp [generate_candidate_actions, h] at ha
      rcases ha with rfl | rfl | rfl <;> simp

/-- Concrete in-conversation context for the C5 witness. -/
def c5_context : AgentContext :=
  { avatar_id := "a1"
    x := 5
    y := 5
    personality :=
      { avatar_id := "a1"
        sociability := 0.5
        curiosity := 0.5
        agreeableness := 0.5
        energy_baseline := 0.5
        world_affinities := [] }
    state := c1_state
    in_conversation := true }

/-- Witness for `claim_C5_theorem` at a concrete in-conversation
context: LEAVE_CONVERSATION is among the candidates. -/
theorem claim_C5_witness :
    (c5_context.in_conversation = true) ∧
    (∃ a ∈ generate_candidate_actions c5_context 0 5,
      a.action_type = ActionType.LEAVE_CONVERSATION) :=
  ⟨rfl, ((claim_C5_theorem _ 0 5).2.2.2 rfl).1⟩

/-- Python `max(scores)` over a list (meaningful for non-empty lists; the
default of `headD` is never reached there). -/
noncomputable def list_max (l : List ℝ) : ℝ := l.foldl max (l.headD 0)

/-- Stabilized softmax of `softmax_select`: subtract the maximum before
exponentiating, then normalize by the sum. -/
noncomputable def softmax_probs (scores : List ℝ) : List ℝ :=
  let max_score := list_max scores
  let exp_scores := scores.map (fun s => Real.exp (s - max_score))
  let sum_exp := exp_scores.sum
  exp_scores.map (fun e => e / sum_exp)

/-- Sampling loop of `softmax_select`: walk the (action, probability)
pairs accumulating cumulative probability until the uniform draw `r`
falls below it. -/
noncomputable def cumulative_select :
    List (CandidateAction × ℝ) → ℝ → ℝ → Option CandidateAction
  | [], _, _ => none
  | (a, p) :: rest, cumulative, r =>
    if r ≤ cumulative + p then some a else cumulative_select rest (cumulative + p) r

/-- Embedding of `softmax_select` (`agent_engine.py`).  Raising
`ValueError` on an empty list is modelled as `none`; `r` is the
`random.random()` draw; the final `actions[-1]` fallback is
`getLast?`. -/
noncomputable def softmax_select (actions : List CandidateAction)
    (temperature : ℝ) (r : ℝ) : Option CandidateAction :=
  match actions with
  | [] => none
  | [a] => some a
  | _ =>
    let scores := actions.map (fun a => ((a.utility_score : ℚ) : ℝ) / temperature)
    let probabilities := softmax_probs scores
    match cumulative_select (actions.zip probabilities) 0.0 r with
    | some a => some a
    | none => actions.getLast?

/-- Filtering step of `make_decision` (`agent_engine.py`): drop
non-positive-utility candidates unless that would drop everything. -/
def filter_positive (scored : List CandidateAction) : List CandidateAction :=
  let positive_actions := scored.filter (fun a => 0 < a.utility_score)
  if positive_actions.isEmpty then scored else positive_actions

/-- The sampling loop only returns elements of the pair list. -/
theorem cumulative_select_mem (pairs : List (CandidateAction × ℝ)) (c r : ℝ)
    (a : CandidateAction) (h : cumulative_select pairs c r = some a) :
    a ∈ pairs.map Prod.fst := by
  induction pairs generalizing c with
  | nil => simp [cumulative_select] at h
  | cons p rest ih =>
    obtain ⟨b, q⟩ := p
    simp only [cumulative_select] at h
    by_cases hc : r ≤ c + q
    · rw [if_pos hc] at h
      simp at h
      simp [h]
    · rw [if_neg hc] at h
      simpa using Or.inr (ih _ h)

/-- The last element of a list is a member. -/
theorem getLast?_mem_list (l : List CandidateAction) (a : CandidateAction)
    (h : l.getLast? = some a) : a ∈ l := by
  have hx : a ∈ l.getLast? := h
  obtain ⟨hne, rfl⟩ := List.mem_getLast?_eq_getLast hx
  exact List.getLast_mem hne

/-- C3: `softmax_select` only returns members of its input and returns
the sole candidate of a singleton list for every draw (probability 1);
the filtering step of `make_decision` drops non-positive-utility
candidates exactly when some candidate is positive and keeps the whole
list otherwise; and the max-subtraction stabilization leaves the softmax
distribution equal to the unstabilized `exp sᵢ / Σ exp sⱼ`.  The
sampling itself is the single-uniform-draw cumulative walk
`cumulative_select`. -/
theorem claim_C3_theorem :
    (∀ (actions : List CandidateAction) (temperature r : ℝ) (a : CandidateAction),
      softmax_select actions temperature r = some a → a ∈ actions) ∧
    (∀ (a : CandidateAction) (temperature r : ℝ),
      softmax_select [a] temperature r = some a) ∧
    (∀ scored : List CandidateAction,
      ((∃ a ∈ scored, 0 < a.utility_score) →
        filter_positive scored = scored.filter (fun a => 0 < a.utility_score)) ∧
      ((∀ a ∈ scored, a.utility_score ≤ 0) → filter_positive scored = scored)) ∧
    (∀ scores : List ℝ,
      softmax_probs scores =
        scores.map (fun s => Real.exp s / (scores.map Real.exp).sum)) := by
  refine ⟨?_, ?_, ?_, ?_⟩
  · intro actions temperature r a h
    match actions with
    | [] => simp [softmax_select] at h
    | [x] =>
      simp [softmax_select] at h
      simp [h]
    | x :: y :: rest =>
      simp only [softmax_select] at h
      set pairs := (x :: y :: rest).zip
        (softmax_probs ((x :: y :: rest).map
          (fun a => ((a.utility_score : ℚ) : ℝ) / temperature))) with hpairs
      cases hcum : cumulative_select pairs 0.0 r with
      | some b =>
        rw [hcum] at h
        have hba : b = a := by simpa using h
        subst hba
        have hmem := cumulative_select_mem pairs 0.0 r b hcum
        obtain ⟨⟨a2, p2⟩, hp, rfl⟩ := List.mem_map.mp hmem
        exact (List.of_mem_zip hp).1
      | none =>
        rw [hcum] at h
        exact getLast?_mem_list _ _ h
  · intro a temperature r
    rfl
  · intro scored
    constructor
    · rintro ⟨a, ha, hpos⟩
      have hne : scored.filter (fun a => 0 < a.utility_score) ≠ [] := by
        intro hnil
        rw [List.filter_eq_nil_iff] at hnil
        exact absurd hpos (by simpa using hnil a ha)
      simp only [filter_positive]
      rw [if_neg (by simpa [List.isEmpty_iff] using hne)]
    · intro hall
      have hnil : scored.filter (fun a => 0 < a.utility_score) = [] := by
        rw [List.filter_eq_nil_iff]
        intro a ha
        simpa using not_lt.mpr (hall a ha)
      simp [filter_positive, hnil]
  · intro scores
    simp only [softmax_probs]
    have hexp : (fun s => Real.exp (s - list_max scores)) =
        fun s => Real.exp s * (Real.exp (list_max scores))⁻¹ := by
      funext s
      rw [Real.exp_sub, div_eq_mul_inv]
    rw [hexp, List.map_map]
    have hsum : (scores.map fun s => Real.exp s * (Real.exp (list_max scores))⁻¹).sum =
        (scores.map Real.exp).sum * (Real.exp (list_max scores))⁻¹ :=
      List.sum_map_mul_right scores Real.exp _
    rw [hsum]
    refine List.map_congr_left ?_
    intro s _
    show Real.exp s * (Real.exp (list_max scores))⁻¹ /
      ((scores.map Real.exp).sum * (Real.exp (list_max scores))⁻¹) =
      Real.exp s / (scores.map Real.exp).sum
    exact mul_div_mul_right _ _ (inv_ne_zero (Real.exp_ne_zero _))

/-- Default candidate used by witnesses. -/
def c3_candidate : CandidateAction :=
  { action_type := .IDLE, target := none, utility_score := 1.5 }

/-- Witness for `claim_C3_theorem`: on the singleton list the selector
returns the sole candidate, and that candidate is a member. -/
theorem claim_C3_witness :
    softmax_select [c3_candidate] 0.3 0.5 = some c3_candidate ∧
    c3_candidate ∈ [c3_candidate] :=
  ⟨claim_C3_theorem.2.1 c3_candidate 0.3 0.5,
    claim_C3_theorem.1 [c3_candidate] 0.3 0.5 c3_candidate
      (claim_C3_theorem.2.1 c3_candidate 0.3 0.5)⟩

/-- Target-id dispatch at the top of `score_action`: the avatar id when
the target is an avatar reference, the location id when it is a location
reference (Python truthiness: an empty-string id counts as absent). -/
def target_ids (target : Option ActionTarget) : Option String × Option String :=
  match target with
  | none => (none, none)
  | some t =>
    let tid_truthy : Option String := match t.target_id with
      | some tid => if tid ≠ "" then some tid else none
      | none => none
    if t.target_type = "avatar" then (tid_truthy, none)
    else if t.target_type = "location" then (none, tid_truthy)
    else (none, none)

/-- Embedding of `score_action` (`agent_engine.py`): five weighted
components plus jitter; `jitter` is the `random.gauss(0, 0.1)` draw,
`now` the wall clock used by the recency penalty. -/
def score_action (action : CandidateAction) (context : AgentContext)
    (now : ℚ) (jitter : ℚ) : CandidateAction :=
  let ids := target_ids action.target
  let target_avatar : Option NearbyAvatar := match ids.1 with
    | some tid => context.nearby_avatars.find? (fun a2 => a2.avatar_id == tid)
    | none => none
  let social_memory : Option SocialMemory := match ids.1 with
    | some tid => context.social_memories.find? (fun m => m.to_avatar_id == tid)
    | none => none
  let target_location : Option WorldLocation := match ids.2 with
    | some tid => context.world_locations.find? (fun loc => loc.id == tid)
    | none => none
  let need := calculate_need_satisfaction action.action_type context.state
    action.target target_location * DecisionConfig.NEED_WEIGHT
  let pers := calculate_personality_alignment action.action_type context.personality
    target_location * DecisionConfig.PERSONALITY_WEIGHT
  let soc := calculate_social_bias action.action_type target_avatar
    social_memory * DecisionConfig.SOCIAL_WEIGHT
  let aff := calculate_world_affinity action.action_type context.personality
    target_location * DecisionConfig.AFFINITY_WEIGHT
  let rec_pen := calculate_recency_penalty action.action_type target_avatar social_memory
    context.active_cooldowns target_location now * DecisionConfig.RECENCY_WEIGHT
  let rand := jitter * DecisionConfig.RANDOMNESS_WEIGHT
  { action with
    need_satisfaction := need
    personality_alignment := pers
    social_memory_bias := soc
    world_affinity := aff
    recency_penalty := rec_pen
    randomness := rand
    utility_score := need + pers + soc + aff - rec_pen + rand }

/-- Embedding of `score_all_actions`: score each candidate, consuming
one jitter draw per action in order. -/
def score_all_actions (actions : List CandidateAction) (context : AgentContext)
    (now : ℚ) (jitter : ℕ → ℚ) : List CandidateAction :=
  actions.mapIdx (fun i a => score_action a context now (jitter i))

/-- Request loop of `check_for_interrupts` (`agent_engine.py`):
PLAYER-initiated requests are accepted outright with score 20; others
are accepted with probability 0.7 (one fresh uniform draw per request),
a failed draw moving on to the next request. -/
def check_requests_loop : List ConvRequest → (ℕ → ℚ) → ℕ → Option SelectedAction
  | [], _, _ => none
  | request :: rest, draws, i =>
    let initiator_type := request.initiator_type.getD "ROBOT"
    if initiator_type = "PLAYER" then
      some
        { action_type := .JOIN_CONVERSATION
          target := some { target_type := "avatar", target_id := request.initiator_id }
          utility_score := 20.0 }
    else if draws i < 0.7 then
      some
        { action_type := .JOIN_CONVERSATION
          target := some { target_type := "avatar", target_id := request.initiator_id }
          utility_score := 10.0 }
    else check_requests_loop rest draws (i + 1)

/-- Embedding of `check_for_interrupts` (`agent_engine.py`): all
location-based interrupts are disabled; only pending conversation
requests are inspected. -/
def check_for_interrupts (context : AgentContext) (draws : ℕ → ℚ) : Option SelectedAction :=
  check_requests_loop context.pending_conversation_requests draws 0

/-- Embedding of `calculate_action_duration` (`agent_engine.py`).
AVOID_AVATAR is absent from the source lookup table and falls back to
the dict default 5.0. -/
def calculate_action_duration (action_type : ActionType) : ℚ :=
  match action_type with
  | .IDLE => 0.5
  | .WANDER => 8.0
  | .WALK_TO_LOCATION => 5.0
  | .INTERACT_FOOD => 3.0
  | .INTERACT_KARAOKE => 3.0
  | .INTERACT_REST => 3.0
  | .INTERACT_SOCIAL_HUB => 3.0
  | .INTERACT_WANDER_POINT => 3.0
  | .INITIATE_CONVERSATION => 25.0
  | .JOIN_CONVERSATION => 25.0
  | .LEAVE_CONVERSATION => 1.0
  | .MOVE => 6.0
  | .STAND_STILL => 0.5
  | .AVOID_AVATAR => 5.0

/-- All random draws a tick consumes, as one record: the per-request
uniform draws of the interrupt check, the wander-target angle/distance,
the per-candidate Gaussian jitter, the softmax selection draw and the
activity-duration jitter of the executor. -/
structure RandomDraws where
  interrupt_draws : ℕ → ℚ
  wander_angle : ℝ
  wander_distance : ℝ
  jitter : ℕ → ℚ
  selection : ℝ
  duration_rand : ℚ

/-- Embedding of `make_decision` (`agent_engine.py`): interrupt check,
then generate → score → filter non-positive → softmax-select → attach a
duration.  The `ValueError` of an empty softmax input propagates as
`none` (it is caught by the tick's exception handler). -/
noncomputable def make_decision (context : AgentContext) (rnd : RandomDraws)
    (now : ℚ) : Option SelectedAction :=
  match check_for_interrupts context rnd.interrupt_draws with
  | some interrupt_action => some interrupt_action
  | none =>
    let candidates := generate_candidate_actions context rnd.wander_angle rnd.wander_distance
    let scored := score_all_actions candidates context now rnd.jitter
    let scored2 := filter_positive scored
    match softmax_select scored2 ((DecisionConfig.SOFTMAX_TEMPERATURE : ℚ) : ℝ) rnd.selection with
    | none => none
    | some selected =>
      some
        { action_type := selected.action_type
          target := selected.target
          utility_score := selected.utility_score
          duration_seconds := some (calculate_action_duration selected.action_type) }

/-- C6: with a single pending request, a PLAYER-initiated request is
accepted immediately and unconditionally as JOIN_CONVERSATION at the
maximal synthetic score 20.0; any other initiator type is accepted (at
score 10.0) exactly when the fresh uniform draw is below 0.7, and
otherwise the interrupt check returns none and `make_decision` falls
through to the ordinary generate → score → filter → softmax pipeline. -/
theorem claim_C6_theorem (context : AgentContext) (req : ConvRequest)
    (draws : ℕ → ℚ) (now : ℚ)
    (hreq : context.pending_conversation_requests = [req]) :
    (req.initiator_type.getD "ROBOT" = "PLAYER" →
      check_for_interrupts context draws =
        some
          { action_type := .JOIN_CONVERSATION
            target := some { target_type := "avatar", target_id := req.initiator_id }
            utility_score := 20.0 }) ∧
    (req.initiator_type.getD "ROBOT" ≠ "PLAYER" → draws 0 < 0.7 →
      check_for_interrupts context draws =
        some
          { action_type := .JOIN_CONVERSATION
            target := some { target_type := "avatar", target_id := req.initiator_id }
            utility_score := 10.0 }) ∧
    (req.initiator_type.getD "ROBOT" ≠ "PLAYER" → ¬ draws 0 < 0.7 →
      check_for_interrupts context draws = none) ∧
    (∀ rnd : RandomDraws, check_for_interrupts context rnd.interrupt_draws = none →
      make_decision context rnd now =
        (match softmax_select
            (filter_positive (score_all_actions
              (generate_candidate_actions context rnd.wander_angle rnd.wander_distance)
              context now rnd.jitter))
            ((DecisionConfig.SOFTMAX_TEMPERATURE : ℚ) : ℝ) rnd.selection with
          | none => none
          | some selected =>
            some
              { action_type := selected.action_type
                target := selected.target
                utility_score := selected.utility_score
                duration_seconds := some (calculate_action_duration selected.action_type) })) := by
  refine ⟨?_, ?_, ?_, ?_⟩
  · intro h
    simp [check_for_interrupts, hreq, check_requests_loop, h]
  · intro h hd
    simp [check_for_interrupts, hreq, check_requests_loop, h, hd]
  · intro h hd
    simp [check_for_interrupts, hreq, check_requests_loop, h, hd]
  · intro rnd hnone
    simp only [make_decision, hnone]

/-- Concrete context with a single pending PLAYER request, for the C6
witness. -/
def c6_context : AgentContext :=
  { c5_context with
    in_conversation := false
    pending_conversation_requests := [{ initiator_type := some "PLAYER", initiator_id := some "p1" }] }

/-- Witness for `claim_C6_theorem`: the PLAYER request is accepted with
score 20. -/
theorem claim_C6_witness :
    c6_context.pending_conversation_requests =
      [{ initiator_type := some "PLAYER", initiator_id := some "p1" }] ∧
    check_for_interrupts c6_context (fun _ => 0) =
      some
        { action_type := .JOIN_CONVERSATION
          target := some { target_type := "avatar", target_id := some "p1" }
          utility_score := 20.0 } :=
  ⟨rfl, (claim_C6_theorem c6_context
    { initiator_type := some "PLAYER", initiator_id := some "p1" }
    (fun _ => 0) 0 rfl).1 rfl⟩

/-- Result of executing one action: updated state, result tag, and the
position written by `update_avatar_position` when the action moved the
avatar. -/
structure ExecResult where
  state : AgentState
  result : String
  new_position : Option (ℤ × ℤ) := none
deriving DecidableEq, Repr

/-- The `interact_action_map` dict of `agent_worker.py`; its `IDLE`
default is unreachable over the `LocationType` enum. -/
def interact_action_map (lt : LocationType) : ActionType :=
  match lt with
  | .FOOD => .INTERACT_FOOD
  | .KARAOKE => .INTERACT_KARAOKE
  | .REST_AREA => .INTERACT_REST
  | .SOCIAL_HUB => .INTERACT_SOCIAL_HUB
  | .WANDER_POINT => .INTERACT_WANDER_POINT

/-- Python truthiness of `action.duration_seconds` (None and 0.0 are
falsy). -/
def duration_truthy : Option ℚ → Bool
  | none => false
  | some d => decide (d ≠ 0)

/-- Python `action.action_type.value.startswith("interact_")`: over the
fourteen enum values this holds exactly for the five interact tags. -/
def is_activity_action (a : ActionType) : Bool :=
  decide (a ∈ [ActionType.INTERACT_FOOD, .INTERACT_KARAOKE, .INTERACT_REST,
    .INTERACT_SOCIAL_HUB, .INTERACT_WANDER_POINT])

/-- Activity duration draw of `agent_worker.py`:
`int(6 + random.uniform(-1, 1))` clamped to [5, 8]. -/
def chosen_activity_duration (duration_rand : ℚ) : ℤ :=
  max 5 (min (pyTruncQ (6 + duration_rand)) 8)

/-- Embedding of `execute_action` (`agent_worker.py`).  Database writes
(`update_avatar_position`, `record_world_interaction`,
`update_social_memory`) are external I/O; the position write is
reported in `new_position`.  `duration_rand` is the
`random.uniform(-1, 1)` draw of the activity-start branches; `now`
stands for every `datetime.utcnow()` call of this invocation. -/
noncomputable def execute_action (context : AgentContext) (action : SelectedAction)
    (now : ℚ) (duration_rand : ℚ) : ExecResult :=
  let state0 := context.state
  let step : AgentState × String × Option (ℤ × ℤ) :=
    match action.action_type with
    | .IDLE =>
      (apply_interaction_effects state0 [("energy", 0.05), ("mood", 0.01)] now, "success", none)
    | .WANDER =>
      let state := apply_interaction_effects state0 [("energy", -0.03), ("mood", 0.02)] now
      match action.target with
      | some t =>
        match t.x, t.y with
        | some tx, some ty =>
          let dx := tx - context.x
          let dy := ty - context.y
          let new_x := context.x + max (-3) (min 3 dx)
          let new_y := context.y + max (-3) (min 3 dy)
          (state, "success", some (new_x, new_y))
        | _, _ => (state, "success", none)
      | none => (state, "success", none)
    | .WALK_TO_LOCATION =>
      (match action.target with
      | some t =>
        match t.target_id with
        | some tid =>
          if tid ≠ "" then
            match context.world_locations.find? (fun loc => loc.id == tid) with
            | some location =>
              let dx := location.x - context.x
              let dy := location.y - context.y
              let distance : ℝ := Real.sqrt (((dx : ℝ)) ^ 2 + ((dy : ℝ)) ^ 2)
              if distance ≤ 1 then
                let interact_action := interact_action_map location.location_type
                let chosen_duration := chosen_activity_duration duration_rand
                let state :=
                  { state0 with
                    current_action := some interact_action.value
                    current_action_target := some { t with name := some location.name }
                    action_started_at := some now
                    action_expires_at := some (now + (chosen_duration : ℚ)) }
                (state, "arrived_started_activity", none)
              else
                let move_factor : ℝ := min 1.0 (3.0 / distance)
                let new_x := context.x + pyTrunc ((dx : ℝ) * move_factor)
                let new_y := context.y + pyTrunc ((dy : ℝ) * move_factor)
                let state := apply_interaction_effects state0 [("energy", -0.02)] now
                (state, "success", some (new_x, new_y))
            | none => (state0, "success", none)
          else (state0, "success", none)
        | none => (state0, "success", none)
      | none => (state0, "success", none))
    | .INTERACT_FOOD | .INTERACT_KARAOKE | .INTERACT_REST
    | .INTERACT_SOCIAL_HUB | .INTERACT_WANDER_POINT =>
      (match action.target with
      | some t =>
        match t.target_id with
        | some tid =>
          if tid ≠ "" then
            match context.world_locations.find? (fun loc => loc.id == tid) with
            | some location =>
              match context.state.action_expires_at with
              | some expires_at =>
                if now ≥ expires_at then
                  let state := apply_interaction_effects state0 location.effects now
                  let state :=
                    { state with
                      current_action := some "idle"
                      current_action_target := none
                      action_started_at := none
                      action_expires_at := none }
                  (state, "activity_completed", none)
                else
                  let state := match context.state.action_started_at with
                    | some started_at =>
                      let total_duration := expires_at - started_at
                      if total_duration > 0 then
                        apply_interaction_effects state0
                          (location.effects.map (fun p => (p.1, p.2 * (1.0 / total_duration)))) now
                      else state0
                    | none => state0
                  (state, "activity_in_progress", none)
              | none =>
                let chosen_duration := chosen_activity_duration duration_rand
                let state :=
                  { state0 with
                    current_action := some action.action_type.value
                    current_action_target := some { t with name := some location.name }
                    action_started_at := some now
                    action_expires_at := some (now + (chosen_duration : ℚ)) }
                (state, "arrived_started_activity", none)
            | none => (state0, "success", none)
          else (state0, "success", none)
        | none => (state0, "success", none)
      | none => (state0, "success", none))
    | .INITIATE_CONVERSATION =>
      (match action.target with
      | some t =>
        match t.target_id with
        | some tid =>
          if tid ≠ "" then
            (apply_interaction_effects state0 [("loneliness", -0.2), ("energy", -0.05)] now,
              "success", none)
          else (state0, "success", none)
        | none => (state0, "success", none)
      | none => (state0, "success", none))
    | .JOIN_CONVERSATION =>
      (apply_interaction_effects state0 [("loneliness", -0.15), ("mood", 0.05)] now,
        "success", none)
    | .LEAVE_CONVERSATION => (state0, "success", none)
    | .AVOID_AVATAR =>
      (match action.target with
      | some t =>
        match t.x, t.y with
        | some tx, some ty =>
          let dx := tx - context.x
          let dy := ty - context.y
          let distance : ℝ := max 1 (Real.sqrt (((dx : ℝ)) ^ 2 + ((dy : ℝ)) ^ 2))
          let move_factor : ℝ := min 1.0 (4.0 / distance)
          let new_x := context.x + pyTrunc ((dx : ℝ) * move_factor)
          let new_y := context.y + pyTrunc ((dy : ℝ) * move_factor)
          let state := apply_interaction_effects state0 [("energy", -0.03), ("mood", -0.05)] now
          (state, "success", some (new_x, new_y))
        | _, _ => (state0, "success", none)
      | none => (state0, "success", none))
    | .MOVE => (state0, "success", none)
    | .STAND_STILL => (state0, "success", none)
  let state1 := step.1
  let result := step.2.1
  let pos := step.2.2
  let final_state :=
    if result ∈ ["arrived_started_activity", "activity_in_progress", "activity_completed"] then
      state1
    else
      let is_new_action : Bool := decide (state1.current_action ≠ some action.action_type.value)
      let is_activity := is_activity_action action.action_type
      let st :=
        { state1 with
          current_action := some action.action_type.value
          current_action_target := action.target }
      if is_new_action then
        let st := { st with action_started_at := some now }
        if is_activity ∧ duration_truthy action.duration_seconds then
          { st with action_expires_at := some (now + action.duration_seconds.getD 0) }
        else if ¬ (is_activity : Prop) then
          { st with action_expires_at := none }
        else st
      else st
  { state := final_state, result := result, new_position := pos }

/-- The tick outcome visible to the caller: the action chosen (decision
or continuation), the state written back, the executor's result tag and
any position update. -/
structure TickResult where
  action : SelectedAction
  state : AgentState
  result : String
  new_position : Option (ℤ × ℤ)

/-- In-activity continuation check of `process_agent_tick`
(`agent_worker.py`): while an interact action's expiry is still in the
future and the location exists, re-emit the same activity action
(utility 10, the location's duration) instead of making a new
decision. -/
def continue_activity_action (context : AgentContext) (now : ℚ) : Option SelectedAction :=
  let interact_actions := ["interact_rest", "interact_food", "interact_karaoke",
    "interact_social_hub", "interact_wander_point"]
  match context.state.current_action, context.state.current_action_target with
    | some ca, some target =>
      if ca ∈ interact_actions then
        match target.target_id, context.state.action_expires_at with
        | some tid, some expires_at =>
          if tid ≠ "" then
            if now < expires_at then
              match context.world_locations.find? (fun loc => loc.id == tid) with
              | some location =>
                match ActionType.ofValue ca with
                | some atype =>
                  some
                    { action_type := atype
                      target := some
                        { target_type := "location"
                          target_id := some location.id
                          name := some location.name
                          x := some location.x
                          y := some location.y }
                      utility_score := 10.0
                      duration_seconds := some (location.duration_seconds : ℚ) }
                | none => none
              | none => none
            else none
          else none
        | _, _ => none
      else none
    | _, _ => none

/-- Mid-walk continuation check of `process_agent_tick`
(`agent_worker.py`): while walking toward a location more than one tile
away, keep walking (utility 5, no lock); on arrival, emit the
destination's interact action directly. -/
noncomputable def continue_walk_action (context : AgentContext) (_now : ℚ) : Option SelectedAction :=
  match context.state.current_action, context.state.current_action_target with
    | some ca, some target =>
      if ca = "walk_to_location" then
        match target.target_id with
        | some tid =>
          if tid ≠ "" then
            match context.world_locations.find? (fun loc => loc.id == tid) with
            | some location =>
              let dx := location.x - context.x
              let dy := location.y - context.y
              let distance : ℝ := Real.sqrt (((dx : ℝ)) ^ 2 + ((dy : ℝ)) ^ 2)
              if distance > 1 then
                some
                  { action_type := .WALK_TO_LOCATION
                    target := some
                      { target_type := "location"
                        target_id := some location.id
                        name := some location.name
                        x := some location.x
                        y := some location.y }
                    utility_score := 5.0
                    duration_seconds := none }
              else
                some
                  { action_type := interact_action_map location.location_type
                    target := some
                      { target_type := "location"
                        target_id := some location.id
                        name := some location.name
                        x := some location.x
                        y := some location.y }
                    utility_score := 10.0
                    duration_seconds := some (location.duration_seconds : ℚ) }
            | none => none
          else none
        | none => none
      else none
    | _, _ => none

/-- Embedding of the decision core of `process_agent_tick`
(`agent_worker.py`): elapsed-time computation, state decay, the
in-activity and mid-walk continuation checks, fresh decision via
`make_decision` otherwise, then `execute_action`.  Lock
acquisition/release, context building, the state write-back and the
debug decision log are external I/O around this core; any exception
(e.g. the empty-candidates `ValueError`) makes the tick return `none`. -/
noncomputable def process_agent_tick (context0 : AgentContext) (rnd : RandomDraws)
    (now : ℚ) : Option TickResult :=
  let elapsed := match context0.state.last_tick with
    | some lt => now - lt
    | none => (300 : ℚ)
  let context := { context0 with state := apply_state_decay context0.state elapsed now }
  let selected : Option SelectedAction :=
    match continue_activity_action context now with
    | some a => some a
    | none =>
      match continue_walk_action context now with
      | some a => some a
      | none => make_decision context rnd now
  match selected with
  | none => none
  | some action =>
    let er := execute_action context action now rnd.duration_rand
    some
      { action := action
        state := er.state
        result := er.result
        new_position := er.new_position }

/-- Concrete food location for the C2 tick scenario. -/
def c2_location : WorldLocation :=
  { id := "loc-1"
    name := "Cafe"
    location_type := .FOOD
    x := 10
    y := 10
    effects := [("hunger", -0.4), ("mood", 0.1)]
    cooldown_seconds := 300
    duration_seconds := 30 }

/-- Concrete agent state mid-activity at `c2_location`: started at t=100,
expiring at t=106. -/
def c2_state : AgentState :=
  { avatar_id := "agent-1"
    energy := 0.8
    hunger := 0.3
    loneliness := 0.5
    mood := 0.5
    current_action := some "interact_food"
    current_action_target := some
      { target_type := "location"
        target_id := some "loc-1"
        name := some "Cafe"
        x := some 10
        y := some 10 }
    action_started_at := some 100
    action_expires_at := some 106
    last_tick := none
    tick_lock_until := none
    created_at := none
    updated_at := none }

/-- Concrete tick context for C2: the agent sits at the location; one
pending PLAYER conversation request makes the post-expiry decision
deterministic. -/
def c2_context : AgentContext :=
  { avatar_id := "agent-1"
    x := 10
    y := 10
    personality :=
      { avatar_id := "agent-1"
        sociability := 0.5
        curiosity := 0.5
        agreeableness := 0.5
        energy_baseline := 0.5
        world_affinities := [] }
    state := c2_state
    social_memories := []
    nearby_avatars := []
    world_locations := [c2_location]
    active_cooldowns := []
    in_conversation := false
    pending_conversation_requests := [{ initiator_type := some "PLAYER", initiator_id := some "p1" }] }

/-- Fixed random draws for the C2 scenario (none of them end up
consulted on the traced paths). -/
noncomputable def c2_rnd : RandomDraws :=
  { interrupt_draws := fun _ => 0
    wander_angle := 0
    wander_distance := 5
    jitter := fun _ => 0
    selection := 0
    duration_rand := 0 }

/-- `c2_state` after one application of `apply_state_decay` with the
default 300 s elapsed time. -/
def c2_decayed_state (now : ℚ) : AgentState :=
  { c2_state with
    energy := 1
    hunger := 0
    loneliness := 0.52
    mood := 0.4975
    updated_at := some now }

/-- `c2_context` after the tick's decay step. -/
def c2_ctx (now : ℚ) : AgentContext :=
  { c2_context with state := c2_decayed_state now }

/-- The continuation action the tick re-emits while the activity is
live. -/
def c2_cont_action : SelectedAction :=
  { action_type := .INTERACT_FOOD
    target := some
      { target_type := "location"
        target_id := some "loc-1"
        name := some "Cafe"
        x := some 10
        y := some 10 }
    utility_score := 10.0
    duration_seconds := some 30 }

/-- The interrupt decision the tick takes once the activity has expired
(the pending PLAYER request). -/
def c2_join_action : SelectedAction :=
  { action_type := .JOIN_CONVERSATION
    target := some { target_type := "avatar", target_id := some "p1" }
    utility_score := 20.0 }

/-- C2 evaluated on the code.  Before expiry (t=103 < 106) the tick
re-emits the same INTERACT_FOOD action, stays in the activity, and
applies the per-tick fractional effects (mood gains 0.1·(1/6), giving
199/400 + 1/60 = 617/1200) — the fraction is the fixed 1/total-duration
of the source, not elapsed-proportional.  After expiry (t=200) the tick
does NOT complete the activity: the continuation guard fails, a fresh
decision is made (here the deterministic PLAYER interrupt), the result
is "success" — never "activity_completed" — the location's remaining
effects (mood +0.1) are never applied (mood becomes 0.4975 + 0.05 from
the join effect, not 0.5975), and the action fields are overwritten
with the new action instead of being cleared to idle. -/
theorem claim_C2_theorem :
    ((process_agent_tick c2_context c2_rnd 103).map (fun tr => tr.result) =
      some "activity_in_progress") ∧
    ((process_agent_tick c2_context c2_rnd 103).map (fun tr => tr.action) =
      some c2_cont_action) ∧
    ((process_agent_tick c2_context c2_rnd 103).map (fun tr => tr.state.current_action) =
      some (some "interact_food")) ∧
    ((process_agent_tick c2_context c2_rnd 103).map (fun tr => tr.state.mood) =
      some (617 / 1200)) ∧
    ((process_agent_tick c2_context c2_rnd 200).map (fun tr => tr.result) =
      some "success") ∧
    ((process_agent_tick c2_context c2_rnd 200).map (fun tr => tr.result) ≠
      some "activity_completed") ∧
    ((process_agent_tick c2_context c2_rnd 200).map (fun tr => tr.action) =
      some c2_join_action) ∧
    ((process_agent_tick c2_context c2_rnd 200).map (fun tr => tr.state.current_action) =
      some (some "join_conversation")) ∧
    ((process_agent_tick c2_context c2_rnd 200).map (fun tr => tr.state.mood) =
      some 0.5475) ∧
    ((process_agent_tick c2_context c2_rnd 200).map (fun tr => tr.state.action_expires_at) =
      some none) := by
  have hdecay103 : apply_state_decay c2_context.state
      (match c2_context.state.last_tick with
        | some lt => (103 : ℚ) - lt
        | none => (300 : ℚ)) 103 = c2_decayed_state 103 := by
    norm_num [apply_state_decay, c2_context, c2_state, c2_decayed_state,
      DecisionConfig.LONELINESS_GROWTH, min_def, max_def]
  have hdecay200 : apply_state_decay c2_context.state
      (match c2_context.state.last_tick with
        | some lt => (200 : ℚ) - lt
        | none => (300 : ℚ)) 200 = c2_decayed_state 200 := by
    norm_num [apply_state_decay, c2_context, c2_state, c2_decayed_state,
      DecisionConfig.LONELINESS_GROWTH, min_def, max_def]
  have hfold103 : ({ c2_context with state := c2_decayed_state 103 } : AgentContext) =
      c2_ctx 103 := rfl
  have hfold200 : ({ c2_context with state := c2_decayed_state 200 } : AgentContext) =
      c2_ctx 200 := rfl
  have hcont103 : continue_activity_action (c2_ctx 103) 103 = some c2_cont_action := by
    simp [continue_activity_action, c2_ctx, c2_context, c2_state, c2_location,
      c2_decayed_state, c2_cont_action, ActionType.ofValue, ActionType.value, List.find?,
      show (103 : ℚ) < 106 from by norm_num]
  have hcont200 : continue_activity_action (c2_ctx 200) 200 = none := by
    simp [continue_activity_action, c2_ctx, c2_context, c2_state, c2_decayed_state,
      show ¬ ((200 : ℚ) < 106) from by norm_num]
  have hwalk200 : continue_walk_action (c2_ctx 200) 200 = none := by
    simp [continue_walk_action, c2_ctx, c2_context, c2_state, c2_decayed_state]
  have hdec200 : make_decision (c2_ctx 200) c2_rnd 200 = some c2_join_action := by
    simp [make_decision, check_for_interrupts, check_requests_loop, c2_ctx, c2_context,
      c2_join_action]
  have hexec103res :
      (execute_action (c2_ctx 103) c2_cont_action 103 c2_rnd.duration_rand).result =
      "activity_in_progress" := by
    simp [execute_action, c2_ctx, c2_context, c2_state, c2_decayed_state, c2_cont_action,
      c2_location, c2_rnd, show ¬ ((103 : ℚ) ≥ 106) from by norm_num]
  have hexec103ca :
      (execute_action (c2_ctx 103) c2_cont_action 103 c2_rnd.duration_rand).state.current_action =
      some "interact_food" := by
    simp [execute_action, apply_interaction_effects, c2_ctx, c2_context, c2_state,
      c2_decayed_state, c2_cont_action, c2_location, c2_rnd, ActionType.value,
      show ¬ ((103 : ℚ) ≥ 106) from by norm_num,
      show (100 : ℚ) < 106 from by norm_num]
  have hexec103mood :
      (execute_action (c2_ctx 103) c2_cont_action 103 c2_rnd.duration_rand).state.mood =
      617 / 1200 := by
    simp [execute_action, apply_interaction_effects, dict_get, List.find?, c2_ctx,
      c2_context, c2_state, c2_decayed_state, c2_cont_action, c2_location, c2_rnd,
      ActionType.value, show ¬ ((103 : ℚ) ≥ 106) from by norm_num,
      show (100 : ℚ) < 106 from by norm_num]
    norm_num [min_def, max_def]
  have hexec200res :
      (execute_action (c2_ctx 200) c2_join_action 200 c2_rnd.duration_rand).result =
      "success" := by
    simp [execute_action, c2_ctx, c2_context, c2_state, c2_decayed_state, c2_join_action]
  have hexec200ca :
      (execute_action (c2_ctx 200) c2_join_action 200 c2_rnd.duration_rand).state.current_action =
      some "join_conversation" := by
    simp [execute_action, apply_interaction_effects, c2_ctx, c2_context, c2_state,
      c2_decayed_state, c2_join_action, is_activity_action, duration_truthy, ActionType.value]
  have hexec200mood :
      (execute_action (c2_ctx 200) c2_join_action 200 c2_rnd.duration_rand).state.mood =
      0.5475 := by
    simp [execute_action, apply_interaction_effects, dict_get, List.find?, c2_ctx,
      c2_context, c2_state, c2_decayed_state, c2_join_action, is_activity_action,
      duration_truthy, ActionType.value]
    norm_num [min_def, max_def]
  have hexec200exp :
      (execute_action (c2_ctx 200) c2_join_action 200 c2_rnd.duration_rand).state.action_expires_at =
      none := by
    simp [execute_action, apply_interaction_effects, c2_ctx, c2_context, c2_state,
      c2_decayed_state, c2_join_action, is_activity_action, duration_truthy, ActionType.value]
  have htick103 : process_agent_tick c2_context c2_rnd 103 =
      some
        { action := c2_cont_action
          state := (execute_action (c2_ctx 103) c2_cont_action 103 c2_rnd.duration_rand).state
          result := (execute_action (c2_ctx 103) c2_cont_action 103 c2_rnd.duration_rand).result
          new_position :=
            (execute_action (c2_ctx 103) c2_cont_action 103 c2_rnd.duration_rand).new_position } := by
    simp only [process_agent_tick]
    rw [hdecay103, hfold103, hcont103]
  have htick200 : process_agent_tick c2_context c2_rnd 200 =
      some
        { action := c2_join_action
          state := (execute_action (c2_ctx 200) c2_join_action 200 c2_rnd.duration_rand).state
          result := (execute_action (c2_ctx 200) c2_join_action 200 c2_rnd.duration_rand).result
          new_position :=
            (execute_action (c2_ctx 200) c2_join_action 200 c2_rnd.duration_rand).new_position } := by
    simp only [process_agent_tick]
    rw [hdecay200, hfold200, hcont200, hwalk200, hdec200]
  refine ⟨?_, ?_, ?_, ?_, ?_, ?_, ?_, ?_, ?_, ?_⟩
  · rw [htick103]
    simp only [Option.map_some']
    rw [hexec103res]
  · rw [htick103]
    simp only [Option.map_some']
  · rw [htick103]
    simp only [Option.map_some']
    rw [hexec103ca]
  · rw [htick103]
    simp only [Option.map_some']
    rw [hexec103mood]
  · rw [htick200]
    simp only [Option.map_some']
    rw [hexec200res]
  · rw [htick200]
    simp only [Option.map_some']
    rw [hexec200res]
    simp
  · rw [htick200]
    simp only [Option.map_some']
  · rw [htick200]
    simp only [Option.map_some']
    rw [hexec200ca]
  · rw [htick200]
    simp only [Option.map_some']
    rw [hexec200mood]
  · rw [htick200]
    simp only [Option.map_some']
    rw [hexec200exp]
